import Mathlib

/-!
Shallow embedding of the skip-resolution scripts of the metatar repository
(`scripts/py/dupliskip.py` and `scripts/py/willskip.py`).

Strings are modelled as `List Char`.  The Python string primitives used by the
scripts (`str.strip`, `str.lower`, `str.replace(" ", "")`, `str.startswith`,
substring membership `in`, `os.path.basename`, `fnmatch.fnmatch`) are modelled
first; the two scripts' own logic follows, one namespace per script, with each
definition transcribed from the corresponding lines of the source file.
-/

set_option maxRecDepth 4000

/-- Characters stripped by Python's `str.strip()` (ASCII whitespace:
space, tab, newline, carriage return, vertical tab, form feed). -/
def isPySpace (c : Char) : Bool :=
  c == ' ' || c == '\t' || c == '\n' || c == '\r' ||
    c == Char.ofNat 11 || c == Char.ofNat 12

/-- Python `str.strip()`: remove leading and trailing whitespace. -/
def pyStrip (s : List Char) : List Char :=
  ((s.dropWhile isPySpace).reverse.dropWhile isPySpace).reverse

/-- Python `str.lower()` restricted to ASCII (the only characters the
scripts compare after lowering are ASCII). -/
def pyLowerChar (c : Char) : Char :=
  if 'A' ≤ c ∧ c ≤ 'Z' then Char.ofNat (c.toNat + 32) else c

/-- Python `str.lower()` on a whole string. -/
def pyLower (s : List Char) : List Char :=
  s.map pyLowerChar

/-- Python `str.replace(" ", "")`: remove every space character. -/
def removeSpaces (s : List Char) : List Char :=
  s.filter (fun c => !(c == ' '))

/-- Python substring test `needle in hay` for strings. -/
def hasSubstring (needle : List Char) : List Char → Bool
  | [] => needle.isEmpty
  | c :: t => List.isPrefixOf needle (c :: t) || hasSubstring needle t

/-- Python `os.path.basename` on POSIX: everything after the last `/`
(`posixpath.basename`: `p[p.rfind(sep)+1:]`). -/
def basename (p : List Char) : List Char :=
  (p.reverse.takeWhile (fun c => !(c == '/'))).reverse

/-! ### Model of `fnmatch.fnmatch`

Python's `fnmatch.fnmatch(name, pat)` applies `os.path.normcase` (the identity
on POSIX) to both arguments and then matches `name` against the regex produced
by `fnmatch.translate(pat)`, anchored at both ends: `*` matches any run of
characters, `?` any single character, `[...]` a character class (leading `!`
negates; a `]` immediately after the opening `[`/`[!` is a literal member; a
`[` with no closing `]` is a literal `[`; `a-b` inside a class is a range).
The matcher below is written with explicit fuel so that it is structurally
recursive; every recursive step strictly shrinks `pattern.length +
name.length`, so the fuel supplied by `fnmatch` is never exhausted. -/

/-- Scan for the closing `]` of a character class, returning the class body
and the remainder of the pattern (mirrors the scanning loop of
`fnmatch.translate`). -/
def splitClass : List Char → Option (List Char × List Char)
  | [] => none
  | c :: rest =>
    if c = ']' then some ([], rest)
    else
      match splitClass rest with
      | none => none
      | some (a, b) => some (c :: a, b)

/-- Parse a character class body starting right after `[`: an initial `!`
and (after it) an initial `]` belong to the class body, per
`fnmatch.translate`.  Returns the body (including a leading `!` marker)
and the pattern remainder, or `none` when no closing `]` exists. -/
def parseClass (p : List Char) : Option (List Char × List Char) :=
  match p with
  | '!' :: ']' :: rest2 =>
    match splitClass rest2 with
    | none => none
    | some (a, b) => some ('!' :: ']' :: a, b)
  | '!' :: rest =>
    match splitClass rest with
    | none => none
    | some (a, b) => some ('!' :: a, b)
  | ']' :: rest2 =>
    match splitClass rest2 with
    | none => none
    | some (a, b) => some (']' :: a, b)
  | _ => splitClass p

/-- Membership of a character in a (non-negated) class body, with `a-b`
ranges; a `-` at the start or end of the body is a literal member. -/
def inClassBody (c : Char) : List Char → Bool
  | [] => false
  | a :: '-' :: b :: rest =>
    (decide (a ≤ c) && decide (c ≤ b)) || inClassBody c rest
  | a :: rest => (a == c) || inClassBody c rest

/-- Match one character against a parsed class body (leading `!` negates). -/
def matchClass (stuff : List Char) (c : Char) : Bool :=
  match stuff with
  | '!' :: body => !(inClassBody c body)
  | _ => inClassBody c stuff

/-- Fuelled core of the wildcard matcher: `matchPatF fuel pat name` decides
whether `name` fully matches `pat`. -/
def matchPatF : Nat → List Char → List Char → Bool
  | 0, _, _ => false
  | _ + 1, [], name => name.isEmpty
  | f + 1, '*' :: p, name =>
    matchPatF f p name ||
      (match name with
       | [] => false
       | _ :: nt => matchPatF f ('*' :: p) nt)
  | f + 1, '?' :: p, name =>
    (match name with
     | [] => false
     | _ :: nt => matchPatF f p nt)
  | f + 1, '[' :: p, name =>
    (match parseClass p with
     | none =>
       (match name with
        | [] => false
        | c :: nt => ('[' == c) && matchPatF f p nt)
     | some (stuff, rest) =>
       (match name with
        | [] => false
        | c :: nt => matchClass stuff c && matchPatF f rest nt))
  | f + 1, c :: p, name =>
    (match name with
     | [] => false
     | c2 :: nt => (c == c2) && matchPatF f p nt)

/-- Model of `fnmatch.fnmatch(name, pat)` (POSIX, so `normcase` is the
identity and matching is case-sensitive).  The fuel bound
`pat.length + name.length + 1` strictly dominates the recursion depth. -/
def fnmatch (name pat : List Char) : Bool :=
  matchPatF (pat.length + name.length + 1) pat name

/-! ### Skip-source extraction

Both scripts contain the identical extraction loop
(`dupliskip.py` lines 9-36, `willskip.py` lines 17-42); the loop state and
the per-line transition are modelled once as helpers, and then each script
gets its own verbatim copy of the step function and of the fold over the
input lines, mirroring the duplication in the source. -/

/-- State of the extraction loop: the two accumulated lists plus the two
scalar variables of the Python loop. -/
structure ExtractState where
  skiplist : List (List Char)
  globlist : List (List Char)
  found_skiplist : Bool
  current_filename : List Char
deriving Repr, DecidableEq

/-- Test of `dupliskip.py` line 15 / `willskip.py` line 22:
`line.lower().strip().startswith("skiplist:")`. -/
def isSkiplistHeader (line : List Char) : Bool :=
  List.isPrefixOf "skiplist:".toList (pyStrip (pyLower line))

/-- Test of `dupliskip.py` line 18 / `willskip.py` line 25:
`line.startswith("- Filename:")`. -/
def isFilenameHeader (line : List Char) : Bool :=
  List.isPrefixOf "- Filename:".toList line

/-- Test of `dupliskip.py` line 21 / `willskip.py` line 28:
`"skip:true" in line.lower().strip().replace(" ", "")`. -/
def hasSkipTrue (line : List Char) : Bool :=
  hasSubstring "skip:true".toList (removeSpaces (pyStrip (pyLower line)))

/-- Computation of `filename_or_glob` (`dupliskip.py` lines 24-26 /
`willskip.py` lines 31-33): strip the line, then strip one leading `-`
marker and the whitespace after it. -/
def sectionItem (line : List Char) : List Char :=
  let f := pyStrip line
  if List.isPrefixOf "-".toList f then pyStrip (f.drop 1) else f

/-- Symmetric quote stripping for glob entries (`dupliskip.py` lines 28-32 /
`willskip.py` lines 35-39): first double quotes, then single quotes. -/
def stripQuotes (g : List Char) : List Char :=
  let g1 :=
    if List.isPrefixOf ['"'] g && List.isSuffixOf ['"'] g
    then (g.drop 1).dropLast else g
  if List.isPrefixOf [Char.ofNat 39] g1 && List.isSuffixOf [Char.ofNat 39] g1
  then (g1.drop 1).dropLast else g1

namespace Dupliskip

/-- Body of the extraction loop of `dupliskip.py` lines 14-35 applied to one
input line. -/
def stepLine (st : ExtractState) (line : List Char) : ExtractState :=
  if isSkiplistHeader line then
    { st with found_skiplist := true }
  else if isFilenameHeader line then
    { st with current_filename := pyStrip (line.drop 11) }
  else
    let st1 :=
      if hasSkipTrue line then
        { st with skiplist := st.skiplist ++ [st.current_filename] }
      else st
    if st1.found_skiplist then
      let fog := sectionItem line
      if fog.contains '*' then
        { st1 with globlist := st1.globlist ++ [stripQuotes fog] }
      else
        { st1 with skiplist := st1.skiplist ++ [fog] }
    else st1

/-- Model of `get_skiplist_globlist` (`dupliskip.py` lines 9-36): fold the
step over the input lines, starting from empty lists, `found_skiplist =
False` and `current_filename = ""`, and return the two lists. -/
def get_skiplist_globlist (lines : List (List Char)) :
    List (List Char) × List (List Char) :=
  let st := lines.foldl stepLine ⟨[], [], false, []⟩
  (st.skiplist, st.globlist)

/-- Literal-entry loop of `skipped` (`dupliskip.py` lines 46-64): the three
path forms and the basename shortcut, first hit wins; a basename hit on an
entry that equals its own basename exits the loop without a hit. -/
def litLoop (word : List Char) : List (List Char) → Nat
  | [] => 0
  | e :: rest =>
    if word = e ++ ['/'] then 1
    else if word = ['/'] ++ e then 1
    else if word = ['/'] ++ e ++ ['/'] then 1
    else if word = basename e then
      (if e = basename e then 0 else 1)
    else litLoop word rest

/-- Glob loop of `skipped` (`dupliskip.py` lines 65-69): the word is tried
against `g` and against `"/" + g`; the first matching pattern wins. -/
def globLoop (word : List Char) : List (List Char) → Nat
  | [] => 0
  | g :: rest =>
    if fnmatch word g || fnmatch word (['/'] ++ g) then 1
    else globLoop word rest

/-- Model of `skipped` (`dupliskip.py` lines 38-69): the returned
`skipcount`, the sum of the exact-membership hit (line 43), the
literal-loop hit and the glob-loop hit. -/
def skipped (word : List Char) (skiplist globlist : List (List Char)) : Nat :=
  (if skiplist.elem word then 1 else 0) +
    litLoop word skiplist + globLoop word globlist

/-- Literal similarity loop of `dupliskip.py` lines 78-84: first entry with
the same basename as the word, skipping entries with an empty basename. -/
def litSimilar (word : List Char) : List (List Char) → Bool
  | [] => false
  | e :: rest =>
    if basename word = basename e then
      (if basename e = [] then litSimilar word rest else true)
    else litSimilar word rest

/-- Glob similarity loop of `dupliskip.py` lines 85-91: patterns whose
basename is exactly `*` are skipped; otherwise the word's basename is
matched against the pattern's basename. -/
def globSimilar (word : List Char) : List (List Char) → Bool
  | [] => false
  | g :: rest =>
    if basename g = ['*'] then globSimilar word rest
    else if fnmatch (basename word) (basename g) then true
    else globSimilar word rest

/-- Whether `skipped` prints a similarity diagnostic: the similarity loops
run only when `skipcount == 0` (`dupliskip.py` line 73). -/
def similarReported (word : List Char) (skiplist globlist : List (List Char)) :
    Bool :=
  if skipped word skiplist globlist = 0 then
    litSimilar word skiplist || globSimilar word globlist
  else false

/-- Scanner loop of `main` (`dupliskip.py` lines 101-104): exit code 1 at
the first literal entry whose skip count exceeds 1, else 0. -/
def scanLoop (skiplist globlist : List (List Char)) :
    List (List Char) → Nat
  | [] => 0
  | e :: rest =>
    if 1 < skipped e skiplist globlist then 1
    else scanLoop skiplist globlist rest

/-- Model of `main` (`dupliskip.py` lines 98-106): extract, then scan every
literal entry; the result is the process exit code. -/
def main (lines : List (List Char)) : Nat :=
  let (skiplist, globlist) := get_skiplist_globlist lines
  scanLoop skiplist globlist skiplist

end Dupliskip

/-- Outcome of one `willskip.py` run on a query word: the process exit code
and whether a similarity diagnostic was printed. -/
structure WOutcome where
  exitCode : Nat
  similar : Bool
deriving Repr, DecidableEq

namespace Willskip

/-- Body of the extraction loop of `willskip.py` lines 21-42 applied to one
input line (verbatim duplicate of the loop in `dupliskip.py`). -/
def stepLine (st : ExtractState) (line : List Char) : ExtractState :=
  if isSkiplistHeader line then
    { st with found_skiplist := true }
  else if isFilenameHeader line then
    { st with current_filename := pyStrip (line.drop 11) }
  else
    let st1 :=
      if hasSkipTrue line then
        { st with skiplist := st.skiplist ++ [st.current_filename] }
      else st
    if st1.found_skiplist then
      let fog := sectionItem line
      if fog.contains '*' then
        { st1 with globlist := st1.globlist ++ [stripQuotes fog] }
      else
        { st1 with skiplist := st1.skiplist ++ [fog] }
    else st1

/-- Extraction pass of `willskip.py` lines 17-42. -/
def extract (lines : List (List Char)) :
    List (List Char) × List (List Char) :=
  let st := lines.foldl stepLine ⟨[], [], false, []⟩
  (st.skiplist, st.globlist)

/-- Literal-entry loop of `willskip.py` lines 56-70: `True` means the loop
called `sys.exit(0)`; the basename check on an entry equal to its own
basename executes `break` and the run falls through to the glob loop. -/
def litHit (word : List Char) : List (List Char) → Bool
  | [] => false
  | e :: rest =>
    if word = e ++ ['/'] then true
    else if word = ['/'] ++ e then true
    else if word = ['/'] ++ e ++ ['/'] then true
    else if word = basename e then
      (if e = basename e then false else true)
    else litHit word rest

/-- Glob loop of `willskip.py` lines 71-74. -/
def globHit (word : List Char) : List (List Char) → Bool
  | [] => false
  | g :: rest =>
    if fnmatch word g || fnmatch word (['/'] ++ g) then true
    else globHit word rest

/-- Literal similarity loop of `willskip.py` lines 79-84: entries with an
empty basename are skipped with `continue` before the comparison. -/
def litSimilar (word : List Char) : List (List Char) → Bool
  | [] => false
  | e :: rest =>
    if basename e = [] then litSimilar word rest
    else if basename word = basename e then true
    else litSimilar word rest

/-- Glob similarity loop of `willskip.py` lines 85-90 (verbatim duplicate of
the one in `dupliskip.py`). -/
def globSimilar (word : List Char) : List (List Char) → Bool
  | [] => false
  | g :: rest =>
    if basename g = ['*'] then globSimilar word rest
    else if fnmatch (basename word) (basename g) then true
    else globSimilar word rest

/-- Model of `willskip.py` lines 44-93 for a given query word and extracted
lists: the `-l` listing branch, the three matching stages (exact membership,
literal loop, glob loop — each exits 0), then the two similarity loops
(each exits 1 after printing a note), then the final `sys.exit(1)`. -/
def run (word : List Char) (skiplist globlist : List (List Char)) : WOutcome :=
  if word = "-l".toList then ⟨0, false⟩
  else if skiplist.elem word then ⟨0, false⟩
  else if litHit word skiplist then ⟨0, false⟩
  else if globHit word globlist then ⟨0, false⟩
  else if litSimilar word skiplist then ⟨1, true⟩
  else if globSimilar word globlist then ⟨1, true⟩
  else ⟨1, false⟩

/-- Python `"sep".join(xs)`. -/
def pyJoin (sep : List Char) : List (List Char) → List Char
  | [] => []
  | [x] => x
  | x :: xs => x ++ sep ++ pyJoin sep xs

/-- Standard output produced by the `-l` branch (`willskip.py` lines 46-48):
two `print` calls, each emitting a `"\n".join` of one list plus a final
newline. -/
def listOutput (skiplist globlist : List (List Char)) : List Char :=
  (pyJoin ['\n'] skiplist ++ ['\n']) ++ (pyJoin ['\n'] globlist ++ ['\n'])

/-- Model of the whole `willskip.py` entry point (`main`, lines 9-93): with
no command-line argument the usage text is printed and the exit code is 1
(lines 10-16); otherwise the document is extracted and the query resolved. -/
def mainEntry (arg : Option (List Char)) (lines : List (List Char)) : Nat :=
  match arg with
  | none => 1
  | some w => (run w (extract lines).1 (extract lines).2).exitCode

end Willskip

/-! ### Specification-side category functions (for the claims about the
four match categories of spec §4.2)

The source checks the path forms (category 2) and the basename shortcut
(category 3) inside one loop; the two functions below check a single
category each, so that the code's count can be compared against independent
per-category hits. -/

/-- Category 2 of spec §4.2 in isolation: the three path-suffix/prefix
forms, first hit wins. -/
def catPathLoop (word : List Char) : List (List Char) → Nat
  | [] => 0
  | e :: rest =>
    if word = e ++ ['/'] then 1
    else if word = ['/'] ++ e then 1
    else if word = ['/'] ++ e ++ ['/'] then 1
    else catPathLoop word rest

/-- Category 3 of spec §4.2 in isolation: the basename shortcut with its
self-exclusion (an entry equal to its own basename stops the loop without a
hit), first hit wins. -/
def catBaseLoop (word : List Char) : List (List Char) → Nat
  | [] => 0
  | e :: rest =>
    if word = basename e then
      (if e = basename e then 0 else 1)
    else catBaseLoop word rest

/-- Combined test used by the literal-entry loop on a single entry: any of
the three path forms or the basename comparison fires (whether or not the
basename case records a hit, it stops the loop). -/
def entryCheck (word e : List Char) : Bool :=
  word = e ++ ['/'] || word = ['/'] ++ e ||
    word = ['/'] ++ e ++ ['/'] || word = basename e

/-! ### Helper lemmas -/

/-- A POSIX basename never contains a slash. -/
theorem slash_not_mem_basename (p : List Char) : '/' ∉ basename p := by
  intro h
  rw [basename, List.mem_reverse] at h
  have := List.mem_takeWhile_imp h
  simp at this

/-- A word equal to a basename contains no slash. -/
theorem no_slash_of_eq_basename {word e : List Char} (h : word = basename e) :
    '/' ∉ word := fun hs => slash_not_mem_basename e (h ▸ hs)

/-- The isolated basename category yields no hit for a word containing a
slash (a basename never contains one). -/
theorem catBaseLoop_eq_zero_of_slash (word : List Char) (h : '/' ∈ word) :
    ∀ sl, catBaseLoop word sl = 0 := by
  intro sl
  induction sl with
  | nil => rfl
  | cons e rest ih =>
    have h' : ¬ word = basename e := fun hw => slash_not_mem_basename e (hw ▸ h)
    simpa [catBaseLoop, h'] using ih

/-- The isolated path-form category yields no hit for a slash-free word
(all three forms contain a slash). -/
theorem catPathLoop_eq_zero_of_no_slash (word : List Char) (h : '/' ∉ word) :
    ∀ sl, catPathLoop word sl = 0 := by
  intro sl
  induction sl with
  | nil => rfl
  | cons e rest ih =>
    have h1 : ¬ word = e ++ ['/'] := fun hw => h (hw ▸ (by simp))
    have h2 : ¬ word = '/' :: e := fun hw => h (hw ▸ (by simp))
    have h3 : ¬ word = '/' :: (e ++ ['/']) := fun hw => h (hw ▸ (by simp))
    simpa [catPathLoop, h1, h2, h3] using ih

/-- For a word containing a slash the combined literal loop behaves exactly
like the isolated path-form category (the basename comparison can never
fire on such a word). -/
theorem litLoop_eq_catPath_of_slash {word : List Char} (h : '/' ∈ word) :
    ∀ sl, Dupliskip.litLoop word sl = catPathLoop word sl := by
  intro sl
  induction sl with
  | nil => rfl
  | cons e rest ih =>
    have hb : ¬ word = basename e := fun hw => slash_not_mem_basename e (hw ▸ h)
    simp only [Dupliskip.litLoop, catPathLoop, hb, if_false, ih]

/-- For a slash-free word the combined literal loop behaves exactly like the
isolated basename category (none of the three path forms can match such a
word). -/
theorem litLoop_eq_catBase_of_no_slash {word : List Char} (h : '/' ∉ word) :
    ∀ sl, Dupliskip.litLoop word sl = catBaseLoop word sl := by
  intro sl
  induction sl with
  | nil => rfl
  | cons e rest ih =>
    have h1 : ¬ word = e ++ ['/'] := fun hw => h (hw ▸ (by simp))
    have h2 : ¬ word = '/' :: e := fun hw => h (hw ▸ (by simp))
    have h3 : ¬ word = '/' :: (e ++ ['/']) := fun hw => h (hw ▸ (by simp))
    simp only [Dupliskip.litLoop, catBaseLoop, List.cons_append, List.nil_append,
      h1, h2, h3, if_false, ih]

/-- The combined literal-entry loop of the source computes exactly the sum
of the two isolated categories: a path-form hit forces a slash in the word
while a basename hit forces a slash-free word, so the two categories never
interfere inside the shared loop. -/
theorem litLoop_eq_catSum (word : List Char) (sl : List (List Char)) :
    Dupliskip.litLoop word sl = catPathLoop word sl + catBaseLoop word sl := by
  by_cases h : '/' ∈ word
  · rw [litLoop_eq_catPath_of_slash h, catBaseLoop_eq_zero_of_slash word h]
    simp
  · rw [litLoop_eq_catBase_of_no_slash h, catPathLoop_eq_zero_of_no_slash word h]
    simp

/-- The counting literal loop of `dupliskip.py` and the exiting literal loop
of `willskip.py` agree: the count is 1 exactly when the exit fires. -/
theorem litLoop_eq_litHit (word : List Char) :
    ∀ sl, Dupliskip.litLoop word sl =
      (if Willskip.litHit word sl then 1 else 0) := by
  intro sl
  induction sl with
  | nil => rfl
  | cons e rest ih =>
    simp only [Dupliskip.litLoop, Willskip.litHit]
    split_ifs <;>
      first
      | rfl
      | assumption
      | exact False.elim (by assumption)
      | exact absurd rfl (by assumption)
      | simp_all

/-- The counting glob loop of `dupliskip.py` and the exiting glob loop of
`willskip.py` agree. -/
theorem globLoop_eq_globHit (word : List Char) :
    ∀ gl, Dupliskip.globLoop word gl =
      (if Willskip.globHit word gl then 1 else 0) := by
  intro gl
  induction gl with
  | nil => rfl
  | cons g rest ih =>
    simp only [Dupliskip.globLoop, Willskip.globHit]
    split_ifs <;>
      first
      | rfl
      | assumption
      | exact False.elim (by assumption)
      | exact absurd rfl (by assumption)
      | simp_all

/-- The skip count of `dupliskip.py` expressed through the boolean stages of
`willskip.py`. -/
theorem skipped_eq_indicators (word : List Char) (sl gl : List (List Char)) :
    Dupliskip.skipped word sl gl =
      (if sl.elem word then 1 else 0) +
        (if Willskip.litHit word sl then 1 else 0) +
        (if Willskip.globHit word gl then 1 else 0) := by
  rw [Dupliskip.skipped, litLoop_eq_litHit, globLoop_eq_globHit]

/-- The two literal similarity loops agree even though `willskip.py` hoists
the empty-basename `continue` above the comparison. -/
theorem litSimilar_eq (word : List Char) :
    ∀ sl, Dupliskip.litSimilar word sl = Willskip.litSimilar word sl := by
  intro sl
  induction sl with
  | nil => rfl
  | cons e rest ih =>
    by_cases hbe : basename e = ([] : List Char) <;>
      by_cases hbw : basename word = basename e <;>
        simp [Dupliskip.litSimilar, Willskip.litSimilar, hbe, hbw, ih]

/-- The two glob similarity loops are verbatim duplicates. -/
theorem globSimilar_eq (word : List Char) (gl : List (List Char)) :
    Dupliskip.globSimilar word gl = Willskip.globSimilar word gl := by
  induction gl with
  | nil => rfl
  | cons g rest ih =>
    simp only [Dupliskip.globSimilar, Willskip.globSimilar, ih]

/-- Python's `"sep".join` coincides with `List.intercalate`. -/
theorem pyJoin_eq_intercalate (sep : List Char) :
    ∀ xs, Willskip.pyJoin sep xs = List.intercalate sep xs := by
  intro xs
  induction xs with
  | nil => simp [Willskip.pyJoin, List.intercalate]
  | cons x ys ih =>
    cases ys with
    | nil => simp [Willskip.pyJoin, List.intercalate]
    | cons y zs =>
      simp only [Willskip.pyJoin, ih]
      simp [List.intercalate, List.intersperse_cons_cons]

/-! ### Claim theorems -/

/-- C1: evaluation of the duplicate scanner on the failing inputs.  On the
document `skiplist:` / `a` / `a` (two identical literal entries) and on the
document `skiplist:` / `a/foo` / `b/foo` (two literal entries with equal,
non-empty basenames) every entry's hit count is exactly 1 — the membership
test `word in skiplist` contributes a single hit however often the entry is
repeated, and the path/basename loop cannot re-match those entries — so
`main` reports success (exit code 0) instead of the failure the claim
requires. -/
theorem C1_scanner_misses_duplicates :
    Dupliskip.get_skiplist_globlist ["skiplist:".toList, "a".toList, "a".toList]
      = (["a".toList, "a".toList], []) ∧
    Dupliskip.main ["skiplist:".toList, "a".toList, "a".toList] = 0 ∧
    Dupliskip.skipped "a".toList ["a".toList, "a".toList] [] = 1 ∧
    Dupliskip.get_skiplist_globlist
        ["skiplist:".toList, "a/foo".toList, "b/foo".toList]
      = (["a/foo".toList, "b/foo".toList], []) ∧
    Dupliskip.main ["skiplist:".toList, "a/foo".toList, "b/foo".toList] = 0 ∧
    Dupliskip.skipped "a/foo".toList ["a/foo".toList, "b/foo".toList] [] = 1 ∧
    Dupliskip.skipped "b/foo".toList ["a/foo".toList, "b/foo".toList] [] = 1 := by
  decide

/-- C2: the hit count exposed to the duplicate scanner decomposes as the sum
of four independently evaluated category hits — exact membership, the
path-form category, the basename-shortcut category, and the glob category.
In particular a word producing hits in two distinct categories is counted at
least twice. -/
theorem C2_four_categories_decompose (word : List Char)
    (sl gl : List (List Char)) :
    Dupliskip.skipped word sl gl =
      (if sl.elem word then 1 else 0) + catPathLoop word sl +
        catBaseLoop word sl + Dupliskip.globLoop word gl := by
  rw [Dupliskip.skipped, litLoop_eq_catSum]
  omega

/-- C3 counterexample: for word `a` and glob pattern `/*` the claim demands
a hit (since `"/a"` matches `"/*"`), but the code tries the word against
`g` and against `"/" + g` — never `"/" + word` against `g` — so neither
script's glob category reports a hit. -/
theorem C3_counterexample :
    fnmatch "/a".toList "/*".toList = true ∧
    Dupliskip.globLoop "a".toList ["/*".toList] = 0 ∧
    Willskip.globHit "a".toList ["/*".toList] = false ∧
    Dupliskip.skipped "a".toList [] ["/*".toList] = 0 := by
  decide

/-- C3 amended: the glob category reports a hit if and only if some pattern
`g` in the list satisfies `fnmatch word g` or `fnmatch word ("/" + g)` —
the slash is prepended to the pattern, not to the word — case-sensitively,
with the first matching pattern winning (the loop contributes at most one
hit). -/
theorem C3_glob_category_amended (word : List Char) (gl : List (List Char)) :
    Dupliskip.globLoop word gl =
      (if gl.any (fun g => fnmatch word g || fnmatch word (['/'] ++ g))
       then 1 else 0) ∧
    Willskip.globHit word gl =
      gl.any (fun g => fnmatch word g || fnmatch word (['/'] ++ g)) := by
  induction gl with
  | nil => exact ⟨rfl, rfl⟩
  | cons g rest ih =>
    constructor
    · cases hfg : fnmatch word g <;> cases hfg2 : fnmatch word ('/' :: g) <;>
        simp [Dupliskip.globLoop, List.any_cons, hfg, hfg2, ih.1]
    · cases hfg : fnmatch word g <;> cases hfg2 : fnmatch word ('/' :: g) <;>
        simp [Willskip.globHit, List.any_cons, hfg, hfg2, ih.2]

/-- C4 counterexample: the line `Skip: trueX` normalizes to `skip:truex`,
which contains `skip:true` as a substring but is not equal to it, yet the
extractor appends the current filename — so "append iff the normalized
content equals `skip:true`" is false. -/
theorem C4_counterexample :
    (Dupliskip.get_skiplist_globlist
        ["- Filename: f".toList, "Skip: trueX".toList]).1 = ["f".toList] ∧
    ¬ removeSpaces (pyStrip (pyLower "Skip: trueX".toList))
        = "skip:true".toList := by
  decide

/-- C4 amended: on a line that is neither a `skiplist:` header nor a
`- Filename:` line, the current filename is appended to the literal
sequence exactly when the line's trimmed, case-insensitive, space-stripped
content CONTAINS `skip:true` as a substring (not: equals it); the only
other literal append on such a line is the skiplist-section item, appended
after it. -/
theorem C4_append_iff_contains (st : ExtractState) (l : List Char)
    (h1 : isSkiplistHeader l = false) (h2 : isFilenameHeader l = false) :
    (Dupliskip.stepLine st l).skiplist =
      st.skiplist ++ (if hasSkipTrue l then [st.current_filename] else []) ++
        (if st.found_skiplist = true ∧ '*' ∉ sectionItem l
         then [sectionItem l] else []) := by
  cases hst : hasSkipTrue l <;> cases hfs : st.found_skiplist <;>
    by_cases hc : '*' ∈ sectionItem l <;>
      simp [Dupliskip.stepLine, h1, h2, hst, hfs, hc]

/-- C4 witness: a plain `skip:true` line with the section flag off appends
exactly the current filename. -/
theorem C4_witness :
    (Dupliskip.stepLine ⟨[], [], false, "f".toList⟩ "Skip: true".toList).skiplist
      = ["f".toList] := by
  rw [C4_append_iff_contains ⟨[], [], false, "f".toList⟩ "Skip: true".toList
    (by decide) (by decide)]
  decide

/-- C5: every literal entry of the skip set self-matches — the scanner's
hit count for it is at least 1 (the membership test fires) and the
interactive tool exits 0 when queried with it (also in the degenerate case
where the entry is the literal `-l`, via the listing branch). -/
theorem C5_self_match (w : List Char) (sl gl : List (List Char))
    (h : sl.elem w = true) :
    1 ≤ Dupliskip.skipped w sl gl ∧ (Willskip.run w sl gl).exitCode = 0 := by
  constructor
  · simp only [Dupliskip.skipped]
    rw [if_pos h]
    omega
  · simp only [Willskip.run]
    by_cases hl : w = "-l".toList
    · rw [if_pos hl]
    · rw [if_neg hl, if_pos h]

/-- C5 witness: concrete self-match for the entry `a`. -/
theorem C5_witness :
    1 ≤ Dupliskip.skipped "a".toList ["a".toList] [] ∧
      (Willskip.run "a".toList ["a".toList] []).exitCode = 0 :=
  C5_self_match "a".toList ["a".toList] [] (by decide)

/-- C6 counterexample: for the query word `-l` the two entry points
disagree — `willskip.py` takes the listing branch and exits 0 without any
matching, while the hit count of `dupliskip.py` for `-l` against an empty
skip set is 0, so "exit 0 iff hit count at least 1" fails at this word. -/
theorem C6_counterexample :
    (Willskip.run "-l".toList [] []).exitCode = 0 ∧
      Dupliskip.skipped "-l".toList [] [] = 0 := by
  decide

/-- C6 amended: the two entry points agree for every query word other than
the literal `-l`: the duplicated extraction passes produce identical
skip sets, `willskip.py` exits 0 exactly when the hit count of
`dupliskip.py` is at least 1, and when the hit count is 0 both report the
same similarity outcome. -/
theorem C6_entry_points_amended :
    (∀ lines, Dupliskip.get_skiplist_globlist lines = Willskip.extract lines) ∧
    (∀ w sl gl, ¬ w = "-l".toList →
      (((Willskip.run w sl gl).exitCode = 0) ↔ 1 ≤ Dupliskip.skipped w sl gl) ∧
      (Dupliskip.skipped w sl gl = 0 →
        (Willskip.run w sl gl).similar = Dupliskip.similarReported w sl gl)) := by
  constructor
  · intro lines
    rfl
  · intro w sl gl hw
    have hw2 : ¬ w = ['-', 'l'] := hw
    constructor
    · have hs := skipped_eq_indicators w sl gl
      by_cases h1 : w ∈ sl <;> cases h2 : Willskip.litHit w sl <;>
        cases h3 : Willskip.globHit w gl <;>
          cases h4 : Willskip.litSimilar w sl <;>
            cases h5 : Willskip.globSimilar w gl <;>
              simp [Willskip.run, hw2, h1, h2, h3, h4, h5, hs]
    · intro h0
      have hs := skipped_eq_indicators w sl gl
      rw [h0] at hs
      by_cases h1 : w ∈ sl <;> cases h2 : Willskip.litHit w sl <;>
        cases h3 : Willskip.globHit w gl <;> simp [h1, h2, h3] at hs <;>
          cases h4 : Willskip.litSimilar w sl <;>
            cases h5 : Willskip.globSimilar w gl <;>
              simp [Willskip.run, Dupliskip.similarReported, hw2, h0, h1, h2, h3,
                h4, h5, litSimilar_eq, globSimilar_eq]

/-- C6 witness: the agreement instantiated at the word `x` on the empty
skip set. -/
theorem C6_witness :
    ((Willskip.run "x".toList [] []).exitCode = 0 ↔
        1 ≤ Dupliskip.skipped "x".toList [] []) ∧
      (Willskip.run "x".toList [] []).similar =
        Dupliskip.similarReported "x".toList [] [] := by
  have h := C6_entry_points_amended.2 "x".toList [] [] (by decide)
  exact ⟨h.1, h.2 (by decide)⟩

/-- C7: on a line reached with the sticky section flag set that also
satisfies the `skip:true` substring rule, both effects apply — the current
filename is appended to the literal sequence, and the dash-and-whitespace
stripped line is itself classified: appended to the glob list (after quote
stripping) when it contains `*`, else appended verbatim to the literal
sequence right after the filename. -/
theorem C7_dual_effect (st : ExtractState) (l : List Char)
    (h1 : isSkiplistHeader l = false) (h2 : isFilenameHeader l = false)
    (h3 : hasSkipTrue l = true) (h4 : st.found_skiplist = true) :
    (Dupliskip.stepLine st l).skiplist =
      st.skiplist ++ [st.current_filename] ++
        (if '*' ∈ sectionItem l then [] else [sectionItem l]) ∧
    (Dupliskip.stepLine st l).globlist =
      st.globlist ++
        (if '*' ∈ sectionItem l then [stripQuotes (sectionItem l)] else []) := by
  by_cases hc : '*' ∈ sectionItem l <;>
    simp [Dupliskip.stepLine, h1, h2, h3, h4, hc]

/-- C7 witness: inside the section, the line `  Skip: true` appends the
current filename and then itself as a literal item. -/
theorem C7_witness :
    (Dupliskip.stepLine ⟨[], [], true, "f".toList⟩ "  Skip: true".toList).skiplist
        = ["f".toList, "Skip: true".toList] ∧
    (Dupliskip.stepLine ⟨[], [], true, "f".toList⟩ "  Skip: true".toList).globlist
        = [] := by
  have h := C7_dual_effect ⟨[], [], true, "f".toList⟩ "  Skip: true".toList
    (by decide) (by decide) (by decide) rfl
  refine ⟨?_, ?_⟩
  · rw [h.1]
    decide
  · rw [h.2]
    decide

/-- C8 counterexample: the usage error of `willskip.py` exits with status 1,
which is exactly the status of a valid unmatched query — the two are not
distinct. -/
theorem C8_counterexample :
    Willskip.mainEntry none [] = 1 ∧
      Willskip.mainEntry (some "x".toList) [] = 1 := by
  decide

/-- C8 amended: with the word argument missing the tool prints usage text
and exits with the non-zero status 1; this status is the same one used for
a valid query that is not matched, so the two outcomes are not
distinguishable by exit status. -/
theorem C8_usage_amended (lines : List (List Char)) (w : List Char)
    (sl gl : List (List Char)) (hw : ¬ w = "-l".toList)
    (h0 : Dupliskip.skipped w sl gl = 0) :
    Willskip.mainEntry none lines = 1 ∧
      ¬ Willskip.mainEntry none lines = 0 ∧
      (Willskip.run w sl gl).exitCode = Willskip.mainEntry none lines := by
  refine ⟨rfl, by simp [Willskip.mainEntry], ?_⟩
  have hw2 : ¬ w = ['-', 'l'] := hw
  have hs := skipped_eq_indicators w sl gl
  rw [h0] at hs
  by_cases h1 : w ∈ sl <;> cases h2 : Willskip.litHit w sl <;>
    cases h3 : Willskip.globHit w gl <;> simp [h1, h2, h3] at hs <;>
      cases h4 : Willskip.litSimilar w sl <;>
        cases h5 : Willskip.globSimilar w gl <;>
          simp [Willskip.run, Willskip.mainEntry, hw2, h1, h2, h3, h4, h5]

/-- C8 witness: the amended statement at the unmatched query `x` on the
empty document. -/
theorem C8_witness :
    Willskip.mainEntry none [] = 1 ∧ ¬ Willskip.mainEntry none [] = 0 ∧
      (Willskip.run "x".toList [] []).exitCode = Willskip.mainEntry none [] :=
  C8_usage_amended [] "x".toList [] [] (by decide) (by decide)

/-- C9 counterexample: on an empty skip set the `-l` branch does not print
nothing — each of the two `print` calls emits a newline, so the output is
two empty lines. -/
theorem C9_counterexample :
    Willskip.listOutput [] [] = ['\n', '\n'] ∧
      ¬ Willskip.listOutput [] [] = [] := by
  decide

/-- C9 amended: the `-l` query exits 0 without matching (and without a
similarity note), printing the literal entries first and the glob patterns
second, newline-separated with a final newline after each block; on an
empty skip set this output degenerates to two empty lines rather than
nothing. -/
theorem C9_list_mode_amended (sl gl : List (List Char)) :
    (Willskip.run "-l".toList sl gl).exitCode = 0 ∧
    (Willskip.run "-l".toList sl gl).similar = false ∧
    Willskip.listOutput sl gl =
      (List.intercalate ['\n'] sl ++ ['\n']) ++
        (List.intercalate ['\n'] gl ++ ['\n']) := by
  refine ⟨by simp [Willskip.run], by simp [Willskip.run], ?_⟩
  simp only [Willskip.listOutput, pyJoin_eq_intercalate]

/-- C10 counterexample: in the skip set `dir/w`, `w`, `dir2/w` the entry
`w` (equal to its own basename) precedes `dir2/w` (whose basename equals
the word `w`), yet the literal loop hits `dir/w` first, so the
path/basename category contributes 1, not 0 — the claimed consequence
fails when an earlier entry fires before the breaking entry is reached. -/
theorem C10_counterexample :
    Dupliskip.litLoop "w".toList
        ["dir/w".toList, "w".toList, "dir2/w".toList] = 1 ∧
      "w".toList = basename "w".toList ∧
      "w".toList = basename "dir2/w".toList ∧
      ¬ "dir2/w".toList = basename "dir2/w".toList := by
  decide

/-- C10 amended: when the literal loop actually reaches an entry `e` with
`word = basename e` and `e = basename e` — that is, no earlier entry fires
any of the path-form or basename checks — the loop exits without a hit and
no later entry is examined, so the path/basename category contributes 0
regardless of what follows `e`. -/
theorem C10_break_amended (word e : List Char) (pre post : List (List Char))
    (hpre : ∀ x ∈ pre, entryCheck word x = false)
    (hb : word = basename e) (hself : e = basename e) :
    Dupliskip.litLoop word (pre ++ e :: post) = 0 := by
  induction pre with
  | nil =>
    have hns : '/' ∉ word := no_slash_of_eq_basename hb
    have h1 : ¬ word = e ++ ['/'] := fun hw => hns (hw ▸ (by simp))
    have h2 : ¬ word = ['/'] ++ e := fun hw => hns (hw ▸ (by simp))
    have h3 : ¬ word = ['/'] ++ e ++ ['/'] := fun hw => hns (hw ▸ (by simp))
    simp only [List.nil_append, Dupliskip.litLoop]
    rw [if_neg h1, if_neg h2, if_neg h3, if_pos hb, if_pos hself]
  | cons x xs ih =>
    have hx := hpre x (List.mem_cons_self x xs)
    simp only [entryCheck, Bool.or_eq_false_iff, decide_eq_false_iff_not] at hx
    obtain ⟨⟨⟨hx1, hx2⟩, hx3⟩, hx4⟩ := hx
    rw [List.cons_append]
    simp only [Dupliskip.litLoop]
    rw [if_neg hx1, if_neg hx2, if_neg hx3, if_neg hx4]
    exact ih fun y hy => hpre y (List.mem_cons_of_mem x hy)

/-- C10 witness: with `w` itself first in the list, the loop breaks at `w`
and the later entry `dir2/w` is never examined — the category contributes
0. -/
theorem C10_witness :
    Dupliskip.litLoop "w".toList ["w".toList, "dir2/w".toList] = 0 :=
  C10_break_amended "w".toList "w".toList [] ["dir2/w".toList]
    (by simp) (by decide) (by decide)
